import Mathlib

/-!
Verification of the Claude LLM adapter (`src/pipelines/claude.py`).

The adapter is a single Python class `ClaudeLLMAdapter`.  We shallowly embed
its data model and operations:

* Python dict values that occur in the options layers are modelled by the
  inductive type `Value` (strings, numbers — numerals carried exactly as
  rationals since the adapter performs no arithmetic on them — and `None`).
* Python dicts are modelled as association lists (`Dict`) with insertion-order
  preserving update (`dinsert`), first-match lookup (`dget`, sound because all
  dicts built by the code have unique keys), dict-spread merge (`updMany`,
  i.e. `{**a, **b}` with `b` winning), and `dsetdefault`.
* Python truthiness (`if not api_key`, `x or y`) is modelled by
  `Value.isTruthy` / `pyTruthy` / `pyOr`.
* The adapter instance state is `AdapterState`; the lazily created
  `anthropic.Anthropic` client handle is `Client` (it records the api_key it
  was constructed with).  Availability of the optional `anthropic` package is
  an explicit boolean parameter `avail`.
* The async methods `start`, `stop`, `generate` are embedded as pure
  functions returning explicit outputs that record the result (success or the
  raised `RuntimeError`), the post-state, and whether a network call was
  dispatched.  The remote response (`resp.content`) is an oracle argument: a
  list of typed content blocks.
-/

namespace ClaudeAdapter

/-- A Python value as it occurs in the adapter's option dicts: a string, a
number (rationals represent the int/float literals exactly; no arithmetic is
performed on them), or `None`. -/
inductive Value where
  | vStr (s : String)
  | vNum (q : ℚ)
  | vNone
deriving DecidableEq, Repr

/-- Python truthiness of a value: `None`, `""` and `0` are falsy. -/
def Value.isTruthy : Value → Bool
  | .vStr s => s ≠ ""
  | .vNum q => q ≠ 0
  | .vNone => false

/-- A Python dict with string keys, as an insertion-ordered association list.
All dicts the adapter builds have unique keys. -/
def Dict := List (String × Value)
deriving DecidableEq, Repr

instance : EmptyCollection Dict := ⟨([] : List (String × Value))⟩

/-- Dict lookup (`d.get(k)`), first match. -/
def dget (d : Dict) (k : String) : Option Value :=
  match d with
  | [] => none
  | (k', v) :: rest => if k = k' then some v else dget rest k

/-- Dict update `d[k] = v`: replace the first binding of `k` in place, or
append a new binding (Python dicts keep the original position of an updated
key and append new keys). -/
def dinsert (k : String) (v : Value) (d : Dict) : Dict :=
  match d with
  | [] => [(k, v)]
  | (k', v') :: rest =>
      if k = k' then (k', v) :: rest else (k', v') :: dinsert k v rest

/-- Dict spread `{**d, **e}`: apply every binding of `e` over `d` in order,
later bindings winning. -/
def updMany (d e : Dict) : Dict :=
  match e with
  | [] => d
  | (k, v) :: rest => updMany (dinsert k v d) rest

/-- `d.setdefault(k, v)`: insert `k ↦ v` only if `k` is absent. -/
def dsetdefault (k : String) (v : Value) (d : Dict) : Dict :=
  match dget d k with
  | some _ => d
  | none => dinsert k v d

/-- The keys of a dict. -/
def dkeys (d : Dict) : List String := d.map Prod.fst

/-- Python `a or b` where both operands are optional values
(`d.get(k) or e.get(k)` patterns): the first operand if truthy, else the
second. -/
def pyOr (a b : Option Value) : Option Value :=
  match a with
  | some v => if v.isTruthy then some v else b
  | none => b

/-- Python truthiness of a possibly-absent value (`if not api_key`). -/
def pyTruthy (a : Option Value) : Bool :=
  match a with
  | some v => v.isTruthy
  | none => false

/-- The `anthropic.Anthropic` client handle, recording the `api_key` it was
constructed with in `anthropic.Anthropic(api_key=api_key)`. -/
structure Client where
  apiKey : Value
deriving DecidableEq, Repr

/-- The state of a `ClaudeLLMAdapter` instance: the provider-level defaults
(`self._provider_defaults`), the pipeline-level defaults
(`self._pipeline_defaults`), the global config's optional `llm.prompt`
(`getattr(getattr(self._app_config, "llm", None), "prompt", None)`), and the
lazily created client handle (`self._client`, initially `None`). -/
structure AdapterState where
  providerDefaults : Dict
  pipelineDefaults : Dict
  appLlmPrompt : Option Value
  client : Option Client
deriving DecidableEq, Repr

/-- `_merge_options`:
`merged = {**self._provider_defaults, **self._pipeline_defaults, **(runtime or {})}`
followed by `setdefault` of `model`, `temperature`, `max_tokens`.
(`runtime or {}` spreads exactly like `runtime` itself, since an empty dict
spreads to nothing.) -/
def mergeOptions (st : AdapterState) (runtime : Dict) : Dict :=
  dsetdefault "max_tokens" (.vNum 256)
    (dsetdefault "temperature" (.vNum 0.6)
      (dsetdefault "model" (.vStr "claude-3-5-sonnet-20240620")
        (updMany (updMany st.providerDefaults st.pipelineDefaults) runtime)))

/-- One role-tagged message in the request, e.g.
`{"role": "system", "content": system_prompt}`. -/
structure Message where
  role : String
  content : Value
deriving DecidableEq, Repr

/-- One typed content block of the raw remote response (`resp.content`):
`block.type` and `block.text` as the code reads them via `getattr` (a missing
`text` attribute reads as `""`, so we carry the text directly). -/
structure ContentBlock where
  btype : String
  btext : String
deriving DecidableEq, Repr

/-- The pipeline's common response shape `LLMResponse(text=…, tool_calls=…,
metadata=…)`. -/
structure LLMResponse where
  text : String
  toolCalls : List Value
  metadata : Dict
deriving DecidableEq, Repr

/-- The `RuntimeError`s `generate` can raise itself: the missing-credential
configuration error (line 90) and the missing-dependency error raised by
`_build_client` (line 68). -/
inductive GenError where
  | config (msg : String)
  | dependency (msg : String)
deriving DecidableEq, Repr

instance {ε α : Type} [DecidableEq ε] [DecidableEq α] : DecidableEq (Except ε α) :=
  fun x y =>
    match x, y with
    | .ok a, .ok b =>
        if h : a = b then isTrue (by rw [h]) else isFalse (by intro hc; cases hc; exact h rfl)
    | .error a, .error b =>
        if h : a = b then isTrue (by rw [h]) else isFalse (by intro hc; cases hc; exact h rfl)
    | .ok _, .error _ => isFalse (by intro hc; cases hc)
    | .error _, .ok _ => isFalse (by intro hc; cases hc)

/-- Output of `start`: it only logs (a warning when the `anthropic` package is
unavailable), never raises, leaves the state unchanged and makes no network
call. -/
structure StartOutput where
  result : Except String Unit
  state : AdapterState
  warnedMissingDep : Bool
  networkCalled : Bool
deriving DecidableEq, Repr

/-- `start`: warn if `anthropic is None`, else log readiness; no state change,
no failure, no network call. -/
def start (avail : Bool) (st : AdapterState) : StartOutput :=
  ⟨.ok (), st, !avail, false⟩

/-- Output of `stop`. -/
structure StopOutput where
  result : Except String Unit
  state : AdapterState
  networkCalled : Bool
deriving DecidableEq, Repr

/-- `stop`: `self._client = None`; nothing else, nothing can raise. -/
def stop (st : AdapterState) : StopOutput :=
  ⟨.ok (), { st with client := none }, false⟩

/-- `_build_client(api_key)`: raise if the `anthropic` package is missing;
otherwise construct the client only when `self._client is None`, and return
the (possibly pre-existing) handle together with the post-state. -/
def buildClient (avail : Bool) (st : AdapterState) (apiKey : Value) :
    Except String (AdapterState × Client) :=
  if avail then
    match st.client with
    | none =>
        let c : Client := ⟨apiKey⟩
        .ok ({ st with client := some c }, c)
    | some c => .ok (st, c)
  else
    .error "anthropic package is not installed. Run `pip install anthropic`."

/-- The api_key resolution of `generate` line 88:
`merged.get("api_key") or self._provider_defaults.get("api_key")`. -/
def resolveApiKey (st : AdapterState) (options : Dict) : Option Value :=
  pyOr (dget (mergeOptions st options) "api_key") (dget st.providerDefaults "api_key")

/-- The system-prompt resolution of `generate` line 94:
`merged.get("system") or getattr(getattr(self._app_config, "llm", None), "prompt", None)`. -/
def resolveSystemPrompt (st : AdapterState) (merged : Dict) : Option Value :=
  pyOr (dget merged "system") st.appLlmPrompt

/-- The message construction of `generate` lines 95–98: an optional
system-role message (when the resolved system prompt is truthy) followed by
the user-role transcript. -/
def buildMessages (st : AdapterState) (merged : Dict) (transcript : String) :
    List Message :=
  (if pyTruthy (resolveSystemPrompt st merged) then
    [⟨"system", (resolveSystemPrompt st merged).getD .vNone⟩]
  else []) ++ [⟨"user", .vStr transcript⟩]

/-- Output of one `generate` call: the result (the normalized response or the
raised error), the post-state, the message sequence it constructed (`none`
when it failed before constructing one), whether the remote call was
dispatched, and the caller's options mapping as it stands after the call
(`generate` only ever reads it: `options or {}` on line 87 and the spread
inside `_merge_options`). -/
structure GenOutput where
  result : Except GenError LLMResponse
  state : AdapterState
  messagesBuilt : Option (List Message)
  networkCalled : Bool
  optionsAfter : Dict
deriving DecidableEq, Repr

/-- `generate(call_id, transcript, context, options)`.  `avail` is the
presence of the `anthropic` package; `remote` is the content-block list of the
raw remote response (`resp.content`, an external oracle — any SDK/network
failure would propagate unchanged and is outside this model).  `context` is
accepted but never read by the code. -/
def generate (avail : Bool) (st : AdapterState) (callId : String)
    (transcript : String) (context : Dict) (options : Dict)
    (remote : List ContentBlock) : GenOutput :=
  let merged := mergeOptions st options
  let apiKey := pyOr (dget merged "api_key") (dget st.providerDefaults "api_key")
  if pyTruthy apiKey then
    match buildClient avail st (apiKey.getD .vNone) with
    | .error m => ⟨.error (.dependency m), st, none, false, options⟩
    | .ok (st', _client) =>
        let messages := buildMessages st merged transcript
        let textParts := (remote.filter fun b => b.btype = "text").map ContentBlock.btext
        let text := (String.join textParts).trim
        let modelVal := (dget merged "model").getD (.vStr "claude-3-5-sonnet-20240620")
        ⟨.ok ⟨text, [], [("model", modelVal)]⟩, st', some messages, true, options⟩
  else
    ⟨.error (.config "Claude LLM requires an api_key (set CLAUDE_API_KEY or pipeline options.api_key)"),
      st, none, false, options⟩

/-- Presence-based choice on optional values: the first if present, else the
second (how Python dict-spread precedence behaves, unlike the truthiness-based
`pyOr`). -/
def oFirst (a b : Option Value) : Option Value :=
  match a with
  | some v => some v
  | none => b

/-- The three-way merged lookup described by the spec: runtime wins over
pipeline wins over provider, then the hard-coded fallback defaults for
`model`, `temperature`, `max_tokens` apply only to keys still absent. -/
def specFallback (k : String) : Option Value :=
  if k = "model" then some (.vStr "claude-3-5-sonnet-20240620")
  else if k = "temperature" then some (.vNum 0.6)
  else if k = "max_tokens" then some (.vNum 256)
  else none

/-- Spec-side description of the merged options (per key): a key present in a
higher-precedence layer (provider < pipeline < runtime) replaces the same key
from a lower layer, and `specFallback` fills in keys absent from every
layer. -/
def specMergedLookup (prov pipe rt : Dict) (k : String) : Option Value :=
  oFirst (dget rt k) (oFirst (dget pipe k) (oFirst (dget prov k) (specFallback k)))

theorem oFirst_none_right (a : Option Value) : oFirst a none = a := by
  cases a <;> rfl

theorem oFirst_assoc (a b c : Option Value) :
    oFirst (oFirst a b) c = oFirst a (oFirst b c) := by
  cases a <;> rfl

theorem dget_dinsert (k : String) (v : Value) (d : Dict) (k' : String) :
    dget (dinsert k v d) k' = if k' = k then some v else dget d k' := by
  induction d with
  | nil =>
      simp only [dinsert, dget]
  | cons kv rest ih =>
      obtain ⟨k0, v0⟩ := kv
      by_cases hk : k = k0
      · subst hk
        by_cases h2 : k' = k <;> simp [dinsert, dget, h2]
      · by_cases h2 : k' = k0
        · subst h2
          have hne : ¬ k' = k := fun h => hk h.symm
          simp [dinsert, dget, hk, hne]
        · simp [dinsert, dget, hk, h2, ih]

theorem dget_eq_none_of_not_mem (d : Dict) (k : String) (h : k ∉ dkeys d) :
    dget d k = none := by
  induction d with
  | nil => rfl
  | cons kv rest ih =>
      obtain ⟨k0, v0⟩ := kv
      simp only [dkeys, List.map_cons, List.mem_cons] at h
      push_neg at h
      simp only [dget, if_neg h.1]
      exact ih h.2

theorem dget_updMany_of_absent (d e : Dict) (k : String) (h : dget e k = none) :
    dget (updMany d e) k = dget d k := by
  induction e generalizing d with
  | nil => rfl
  | cons kv rest ih =>
      obtain ⟨k0, v0⟩ := kv
      simp only [dget] at h
      by_cases hk : k = k0
      · simp [hk] at h
      · simp only [if_neg hk] at h
        simp only [updMany]
        rw [ih _ h, dget_dinsert, if_neg hk]

theorem dget_updMany (d e : Dict) (k : String) (he : (dkeys e).Nodup) :
    dget (updMany d e) k = oFirst (dget e k) (dget d k) := by
  induction e generalizing d with
  | nil => rfl
  | cons kv rest ih =>
      obtain ⟨k0, v0⟩ := kv
      simp only [dkeys, List.map_cons, List.nodup_cons] at he
      simp only [updMany]
      rw [ih _ he.2]
      by_cases hk : k = k0
      · subst hk
        rw [dget_eq_none_of_not_mem rest k he.1]
        simp [dget, dget_dinsert, oFirst]
      · simp [dget, dget_dinsert, hk]

theorem dget_dsetdefault (k : String) (v : Value) (d : Dict) (k' : String) :
    dget (dsetdefault k v d) k' =
      if k' = k then oFirst (dget d k) (some v) else dget d k' := by
  unfold dsetdefault
  cases h : dget d k with
  | some w =>
      by_cases h2 : k' = k
      · subst h2; simp [h, oFirst]
      · simp [h2]
  | none =>
      rw [dget_dinsert]
      by_cases h2 : k' = k
      · subst h2; simp [h, oFirst]
      · simp [h2]

theorem dget_dsetdefault_self (k : String) (v : Value) (d : Dict) :
    dget (dsetdefault k v d) k = oFirst (dget d k) (some v) := by
  rw [dget_dsetdefault, if_pos rfl]

theorem dget_dsetdefault_ne (k : String) (v : Value) (d : Dict) (k' : String)
    (h : ¬ k' = k) : dget (dsetdefault k v d) k' = dget d k' := by
  rw [dget_dsetdefault, if_neg h]

theorem mergeOptions_get (st : AdapterState) (rt : Dict) (k : String)
    (hpipe : (dkeys st.pipelineDefaults).Nodup) (hrt : (dkeys rt).Nodup) :
    dget (mergeOptions st rt) k =
      specMergedLookup st.providerDefaults st.pipelineDefaults rt k := by
  unfold mergeOptions specMergedLookup
  by_cases h1 : k = "max_tokens"
  · subst h1
    rw [dget_dsetdefault_self, dget_dsetdefault_ne _ _ _ _ (by decide),
      dget_dsetdefault_ne _ _ _ _ (by decide),
      dget_updMany _ _ _ hrt, dget_updMany _ _ _ hpipe]
    simp [specFallback, oFirst_assoc]
  · by_cases h2 : k = "temperature"
    · subst h2
      rw [dget_dsetdefault_ne _ _ _ _ (by decide), dget_dsetdefault_self,
        dget_dsetdefault_ne _ _ _ _ (by decide),
        dget_updMany _ _ _ hrt, dget_updMany _ _ _ hpipe]
      simp [specFallback, oFirst_assoc]
    · by_cases h3 : k = "model"
      · subst h3
        rw [dget_dsetdefault_ne _ _ _ _ (by decide),
          dget_dsetdefault_ne _ _ _ _ (by decide), dget_dsetdefault_self,
          dget_updMany _ _ _ hrt, dget_updMany _ _ _ hpipe]
        simp [specFallback, oFirst_assoc]
      · rw [dget_dsetdefault_ne _ _ _ _ h1, dget_dsetdefault_ne _ _ _ _ h2,
          dget_dsetdefault_ne _ _ _ _ h3,
          dget_updMany _ _ _ hrt, dget_updMany _ _ _ hpipe]
        simp [specFallback, h1, h2, h3, oFirst_assoc, oFirst_none_right]

/-- `api_key` is not one of the `setdefault` keys and absent from all three
layers stays absent after the merge (no `Nodup` assumption needed). -/
theorem mergeOptions_api_key_none (st : AdapterState) (rt : Dict)
    (h1 : dget st.providerDefaults "api_key" = none)
    (h2 : dget st.pipelineDefaults "api_key" = none)
    (h3 : dget rt "api_key" = none) :
    dget (mergeOptions st rt) "api_key" = none := by
  unfold mergeOptions
  rw [dget_dsetdefault_ne _ _ _ _ (by decide), dget_dsetdefault_ne _ _ _ _ (by decide),
    dget_dsetdefault_ne _ _ _ _ (by decide),
    dget_updMany_of_absent _ _ _ h3, dget_updMany_of_absent _ _ _ h2]
  exact h1

/-- An `api_key` set in the runtime layer survives the merge verbatim. -/
theorem mergeOptions_api_key_of_runtime (st : AdapterState) (rt : Dict)
    (v : Value) (hrt : (dkeys rt).Nodup) (h : dget rt "api_key" = some v) :
    dget (mergeOptions st rt) "api_key" = some v := by
  unfold mergeOptions
  rw [dget_dsetdefault_ne _ _ _ _ (by decide), dget_dsetdefault_ne _ _ _ _ (by decide),
    dget_dsetdefault_ne _ _ _ _ (by decide), dget_updMany _ _ _ hrt, h]
  rfl

/-- An `api_key` set in the pipeline layer survives the merge verbatim when
the runtime layer leaves it absent. -/
theorem mergeOptions_api_key_of_pipeline (st : AdapterState) (rt : Dict)
    (v : Value) (hpipe : (dkeys st.pipelineDefaults).Nodup)
    (h : dget st.pipelineDefaults "api_key" = some v)
    (hrt : dget rt "api_key" = none) :
    dget (mergeOptions st rt) "api_key" = some v := by
  unfold mergeOptions
  rw [dget_dsetdefault_ne _ _ _ _ (by decide), dget_dsetdefault_ne _ _ _ _ (by decide),
    dget_dsetdefault_ne _ _ _ _ (by decide), dget_updMany_of_absent _ _ _ hrt,
    dget_updMany _ _ _ hpipe, h]
  rfl

/-- After the merge, `model` is always present. -/
theorem mergeOptions_model_isSome (st : AdapterState) (rt : Dict) :
    ∃ m, dget (mergeOptions st rt) "model" = some m := by
  unfold mergeOptions
  rw [dget_dsetdefault_ne _ _ _ _ (by decide), dget_dsetdefault_ne _ _ _ _ (by decide),
    dget_dsetdefault_self]
  cases h : dget (updMany (updMany st.providerDefaults st.pipelineDefaults) rt) "model" with
  | some m => exact ⟨m, by simp [oFirst]⟩
  | none => exact ⟨.vStr "claude-3-5-sonnet-20240620", by simp [oFirst]⟩

/-- Text extraction as the spec words it: walk the content segments in order
and keep exactly the text-typed ones (non-text segments are skipped without
affecting the order of later text segments). -/
def specTextParts : List ContentBlock → List String
  | [] => []
  | b :: rest =>
      if b.btype = "text" then b.btext :: specTextParts rest else specTextParts rest

theorem filter_map_eq_specTextParts (remote : List ContentBlock) :
    (remote.filter fun b => b.btype = "text").map ContentBlock.btext =
      specTextParts remote := by
  induction remote with
  | nil => rfl
  | cons b rest ih =>
      by_cases h : b.btype = "text" <;> simp [specTextParts, h, ih]

theorem buildClient_of_none (st : AdapterState) (key : Value) (h : st.client = none) :
    buildClient true st key = .ok ({ st with client := some ⟨key⟩ }, ⟨key⟩) := by
  simp [buildClient, h]

theorem buildClient_of_some (st : AdapterState) (key : Value) (c : Client)
    (h : st.client = some c) : buildClient true st key = .ok (st, c) := by
  simp [buildClient, h]

theorem buildClient_unavailable (st : AdapterState) (key : Value) :
    buildClient false st key = .error
      "anthropic package is not installed. Run `pip install anthropic`." := rfl

theorem generate_config_eq (avail : Bool) (st : AdapterState)
    (callId transcript : String) (context options : Dict)
    (remote : List ContentBlock)
    (hkey : pyTruthy (pyOr (dget (mergeOptions st options) "api_key")
      (dget st.providerDefaults "api_key")) = false) :
    generate avail st callId transcript context options remote =
      ⟨.error (.config "Claude LLM requires an api_key (set CLAUDE_API_KEY or pipeline options.api_key)"),
        st, none, false, options⟩ := by
  simp only [generate, hkey, Bool.false_eq_true, if_false]

theorem generate_ok_eq (st : AdapterState) (callId transcript : String)
    (context options : Dict) (remote : List ContentBlock)
    (hkey : pyTruthy (pyOr (dget (mergeOptions st options) "api_key")
      (dget st.providerDefaults "api_key")) = true)
    (st' : AdapterState) (cl : Client)
    (hbc : buildClient true st ((pyOr (dget (mergeOptions st options) "api_key")
      (dget st.providerDefaults "api_key")).getD .vNone) = .ok (st', cl)) :
    generate true st callId transcript context options remote =
      ⟨.ok ⟨(String.join ((remote.filter fun b => b.btype = "text").map ContentBlock.btext)).trim,
          [], [("model", (dget (mergeOptions st options) "model").getD
            (.vStr "claude-3-5-sonnet-20240620"))]⟩,
        st', some (buildMessages st (mergeOptions st options) transcript),
        true, options⟩ := by
  simp only [generate, hkey, if_true, hbc]

theorem generate_dependency_eq (st : AdapterState) (callId transcript : String)
    (context options : Dict) (remote : List ContentBlock)
    (hkey : pyTruthy (pyOr (dget (mergeOptions st options) "api_key")
      (dget st.providerDefaults "api_key")) = true) :
    generate false st callId transcript context options remote =
      ⟨.error (.dependency "anthropic package is not installed. Run `pip install anthropic`."),
        st, none, false, options⟩ := by
  simp only [generate, hkey, if_true, buildClient_unavailable]

/-- C1: `_merge_options` produces the shallow three-way merge (provider <
pipeline < runtime, a key present in a higher-precedence layer replacing the
same key from a lower layer), then fills in `"claude-3-5-sonnet-20240620"`,
`0.6`, `256` for `model`, `temperature`, `max_tokens` only for keys still
absent; in particular, for provider defaults `{api_key: "k1", temperature:
0.2}`, pipeline defaults `{model: "m1"}`, runtime options `{temperature:
0.9}`, the merged result is `{api_key: "k1", temperature: 0.9, model: "m1",
max_tokens: 256}`. -/
theorem merge_three_way_with_defaults (st : AdapterState) (rt : Dict)
    (hprov : (dkeys st.providerDefaults).Nodup)
    (hpipe : (dkeys st.pipelineDefaults).Nodup)
    (hrt : (dkeys rt).Nodup) :
    (∀ k, dget (mergeOptions st rt) k =
      specMergedLookup st.providerDefaults st.pipelineDefaults rt k) ∧
    mergeOptions
        ⟨[("api_key", .vStr "k1"), ("temperature", .vNum 0.2)],
          [("model", .vStr "m1")], none, none⟩
        [("temperature", .vNum 0.9)] =
      [("api_key", .vStr "k1"), ("temperature", .vNum 0.9),
        ("model", .vStr "m1"), ("max_tokens", .vNum 256)] := by
  exact ⟨fun k => mergeOptions_get st rt k hpipe hrt, by rfl⟩

/-- C1 witness: the general merged-lookup equation instantiated at the
spec's concrete example, for the key `temperature`. -/
theorem merge_three_way_with_defaults_witness :
    dget (mergeOptions
        ⟨[("api_key", .vStr "k1"), ("temperature", .vNum 0.2)],
          [("model", .vStr "m1")], none, none⟩
        [("temperature", .vNum 0.9)]) "temperature" =
      specMergedLookup [("api_key", .vStr "k1"), ("temperature", .vNum 0.2)]
        [("model", .vStr "m1")] [("temperature", .vNum 0.9)] "temperature" :=
  (merge_three_way_with_defaults
    ⟨[("api_key", .vStr "k1"), ("temperature", .vNum 0.2)],
      [("model", .vStr "m1")], none, none⟩
    [("temperature", .vNum 0.9)]
    (by decide) (by decide) (by decide)).1 "temperature"

/-- C2: with no `api_key` anywhere (provider defaults, pipeline defaults,
runtime options), `generate` raises the configuration `RuntimeError` that
mentions the missing api_key, leaves the state unchanged (no client is
constructed), and dispatches no remote call. -/
theorem generate_no_api_key_config_error
    (avail : Bool) (st : AdapterState) (callId transcript : String)
    (context options : Dict) (remote : List ContentBlock)
    (h1 : dget st.providerDefaults "api_key" = none)
    (h2 : dget st.pipelineDefaults "api_key" = none)
    (h3 : dget options "api_key" = none) :
    generate avail st callId transcript context options remote =
      ⟨.error (.config "Claude LLM requires an api_key (set CLAUDE_API_KEY or pipeline options.api_key)"),
        st, none, false, options⟩ := by
  apply generate_config_eq
  rw [mergeOptions_api_key_none st options h1 h2 h3, h1]
  rfl

/-- C2 witness: an adapter with empty layers raises the configuration
error. -/
theorem generate_no_api_key_config_error_witness :
    generate true ⟨[], [], none, none⟩ "call-1" "hello" [] [] [] =
      ⟨.error (.config "Claude LLM requires an api_key (set CLAUDE_API_KEY or pipeline options.api_key)"),
        ⟨[], [], none, none⟩, none, false, []⟩ :=
  generate_no_api_key_config_error true ⟨[], [], none, none⟩ "call-1" "hello"
    [] [] [] rfl rfl rfl

/-- C6: `generate` never mutates the caller-supplied options mapping: after
the call (success or failure) the options argument is the very same mapping,
hence key-for-key equal to its value before the call. -/
theorem generate_preserves_caller_options
    (avail : Bool) (st : AdapterState) (callId transcript : String)
    (context options : Dict) (remote : List ContentBlock) :
    (generate avail st callId transcript context options remote).optionsAfter =
      options ∧
    ∀ k, dget (generate avail st callId transcript context options remote).optionsAfter k =
      dget options k := by
  have h : (generate avail st callId transcript context options remote).optionsAfter =
      options := by
    unfold generate
    cases hkey : pyTruthy (pyOr (dget (mergeOptions st options) "api_key")
        (dget st.providerDefaults "api_key"))
    · simp [hkey]
    · cases hbc : buildClient avail st ((pyOr (dget (mergeOptions st options) "api_key")
          (dget st.providerDefaults "api_key")).getD .vNone) <;> simp [hkey, hbc]
  exact ⟨h, fun k => by rw [h]⟩

/-- C7: `stop` never raises, may be called in any state (with or without a
prior `start`, twice in a row), performs no network operation, and leaves the
client handle unset. -/
theorem stop_never_fails (st : AdapterState) :
    (stop st).result = .ok () ∧ (stop st).state.client = none ∧
    (stop st).networkCalled = false ∧ stop ((stop st).state) = stop st :=
  ⟨rfl, rfl, rfl, rfl⟩

/-- C9: the context mapping is accepted but never consulted: two `generate`
calls differing only in the context argument produce identical outputs
(result, post-state, constructed messages, network behavior). -/
theorem generate_ignores_context
    (avail : Bool) (st : AdapterState) (callId transcript : String)
    (ctx1 ctx2 options : Dict) (remote : List ContentBlock) :
    generate avail st callId transcript ctx1 options remote =
      generate avail st callId transcript ctx2 options remote := rfl

/-- C3 counterexample: `system` is present in the merged options (set to the
empty string by the runtime options) and no global `llm.prompt` is
configured, yet the message sequence `generate` constructs has a single
user entry — not the two entries the claim requires whenever `system` is
present. -/
theorem system_present_empty_single_message :
    dget (mergeOptions ⟨[("api_key", .vStr "k")], [], none, none⟩
        [("system", .vStr "")]) "system" = some (.vStr "") ∧
    (generate true ⟨[("api_key", .vStr "k")], [], none, none⟩ "call-1" "hi" []
        [("system", .vStr "")] []).messagesBuilt =
      some [⟨"user", .vStr "hi"⟩] := by
  exact ⟨by rfl, by rfl⟩

/-- C3 (amended): the resolved system prompt is `merged.get("system") or` the
global `llm.prompt`, under Python truthiness; when it resolves to a truthy
value, the constructed message sequence has exactly two entries — the
system-role prompt followed by the user-role transcript — and when it
resolves to nothing truthy (absent, or present but falsy such as the empty
string, with no truthy global prompt), the sequence is exactly the user-role
transcript. -/
theorem generate_messages_truthy_system
    (st : AdapterState) (callId transcript : String) (context options : Dict)
    (remote : List ContentBlock)
    (hkey : pyTruthy (resolveApiKey st options) = true) :
    (generate true st callId transcript context options remote).messagesBuilt =
      some (buildMessages st (mergeOptions st options) transcript) ∧
    (pyTruthy (resolveSystemPrompt st (mergeOptions st options)) = true →
      buildMessages st (mergeOptions st options) transcript =
        [⟨"system", (resolveSystemPrompt st (mergeOptions st options)).getD .vNone⟩,
          ⟨"user", .vStr transcript⟩]) ∧
    (pyTruthy (resolveSystemPrompt st (mergeOptions st options)) = false →
      buildMessages st (mergeOptions st options) transcript =
        [⟨"user", .vStr transcript⟩]) := by
  unfold resolveApiKey at hkey
  refine ⟨?_, ?_, ?_⟩
  · cases hc : st.client with
    | none =>
        rw [generate_ok_eq st callId transcript context options remote hkey _ _
          (buildClient_of_none st _ hc)]
    | some c =>
        rw [generate_ok_eq st callId transcript context options remote hkey _ _
          (buildClient_of_some st _ c hc)]
  · intro hsys
    unfold buildMessages
    rw [hsys]
    rfl
  · intro hsys
    unfold buildMessages
    rw [hsys]
    rfl

/-- C3 witness: with a non-empty `system` runtime option the sequence is
system then user. -/
theorem generate_messages_truthy_system_witness :
    (generate true ⟨[("api_key", .vStr "k")], [], none, none⟩ "call-1" "hi" []
        [("system", .vStr "be brief")] []).messagesBuilt =
      some (buildMessages ⟨[("api_key", .vStr "k")], [], none, none⟩
        (mergeOptions ⟨[("api_key", .vStr "k")], [], none, none⟩
          [("system", .vStr "be brief")]) "hi") ∧
    buildMessages ⟨[("api_key", .vStr "k")], [], none, none⟩
        (mergeOptions ⟨[("api_key", .vStr "k")], [], none, none⟩
          [("system", .vStr "be brief")]) "hi" =
      [⟨"system", .vStr "be brief"⟩, ⟨"user", .vStr "hi"⟩] := by
  have h := generate_messages_truthy_system
    ⟨[("api_key", .vStr "k")], [], none, none⟩ "call-1" "hi" []
    [("system", .vStr "be brief")] [] (by rfl)
  exact ⟨h.1, h.2.1 (by rfl)⟩

/-- C4: on the success path, the returned response's text is the in-order
concatenation of exactly the text-typed content segments of the raw remote
response, trimmed of leading and trailing whitespace; the tool-call list is
empty; and the metadata carries the resolved model name from the merged
options. -/
theorem generate_normalizes_response
    (st : AdapterState) (callId transcript : String) (context options : Dict)
    (remote : List ContentBlock)
    (hkey : pyTruthy (resolveApiKey st options) = true) :
    ∃ resp,
      (generate true st callId transcript context options remote).result =
        .ok resp ∧
      resp.text = (String.join (specTextParts remote)).trim ∧
      resp.toolCalls = [] ∧
      dget resp.metadata "model" = dget (mergeOptions st options) "model" := by
  unfold resolveApiKey at hkey
  obtain ⟨m, hm⟩ := mergeOptions_model_isSome st options
  have hmeta : ∀ resp : LLMResponse,
      resp.metadata = [("model", (dget (mergeOptions st options) "model").getD
        (.vStr "claude-3-5-sonnet-20240620"))] →
      dget resp.metadata "model" = dget (mergeOptions st options) "model" := by
    intro resp h
    rw [h, hm]
    rfl
  cases hc : st.client with
  | none =>
      rw [generate_ok_eq st callId transcript context options remote hkey _ _
        (buildClient_of_none st _ hc)]
      exact ⟨_, rfl, by rw [filter_map_eq_specTextParts], rfl, hmeta _ rfl⟩
  | some c =>
      rw [generate_ok_eq st callId transcript context options remote hkey _ _
        (buildClient_of_some st _ c hc)]
      exact ⟨_, rfl, by rw [filter_map_eq_specTextParts], rfl, hmeta _ rfl⟩

/-- C4 witness: a response with a tool-use segment between two text segments
normalizes to the trimmed concatenation of the text segments only. -/
theorem generate_normalizes_response_witness :
    ∃ resp,
      (generate true ⟨[("api_key", .vStr "k")], [], none, none⟩ "call-1" "hi" [] []
          [⟨"text", " a "⟩, ⟨"tool_use", "ignored"⟩, ⟨"text", "b "⟩]).result =
        .ok resp ∧
      resp.text = (String.join (specTextParts
        [⟨"text", " a "⟩, ⟨"tool_use", "ignored"⟩, ⟨"text", "b "⟩])).trim ∧
      resp.toolCalls = [] ∧
      dget resp.metadata "model" =
        dget (mergeOptions ⟨[("api_key", .vStr "k")], [], none, none⟩ []) "model" :=
  generate_normalizes_response ⟨[("api_key", .vStr "k")], [], none, none⟩
    "call-1" "hi" [] [] [⟨"text", " a "⟩, ⟨"tool_use", "ignored"⟩, ⟨"text", "b "⟩]
    (by rfl)

/-- C5: the client handle is constructed at most once per lifetime segment:
a `generate` call that reaches construction with no handle present creates it
with the api_key resolved on that call; any `generate` call on a state that
already holds a handle leaves that same handle in place (even when a
different api_key is supplied); and `stop` resets the handle to the unset
state. -/
theorem client_built_once_reused_until_stop :
    (∀ (st : AdapterState) (callId transcript : String) (context options : Dict)
        (remote : List ContentBlock) (key : Value),
      st.client = none → resolveApiKey st options = some key →
      key.isTruthy = true →
      (generate true st callId transcript context options remote).state.client =
        some ⟨key⟩) ∧
    (∀ (avail : Bool) (st : AdapterState) (callId transcript : String)
        (context options : Dict) (remote : List ContentBlock) (c : Client),
      st.client = some c →
      (generate avail st callId transcript context options remote).state.client =
        some c) ∧
    (∀ st : AdapterState, (stop st).state.client = none) := by
  refine ⟨?_, ?_, fun _ => rfl⟩
  · intro st callId transcript context options remote key hc hres htruthy
    unfold resolveApiKey at hres
    have hkey : pyTruthy (pyOr (dget (mergeOptions st options) "api_key")
        (dget st.providerDefaults "api_key")) = true := by
      rw [hres]
      exact htruthy
    rw [generate_ok_eq st callId transcript context options remote hkey _ _
      (buildClient_of_none st _ hc)]
    rw [hres]
    rfl
  · intro avail st callId transcript context options remote c hc
    cases hkey : pyTruthy (pyOr (dget (mergeOptions st options) "api_key")
        (dget st.providerDefaults "api_key")) with
    | false =>
        rw [generate_config_eq avail st callId transcript context options remote hkey]
        exact hc
    | true =>
        cases avail with
        | false =>
            rw [generate_dependency_eq st callId transcript context options remote hkey]
            exact hc
        | true =>
            rw [generate_ok_eq st callId transcript context options remote hkey _ _
              (buildClient_of_some st _ c hc)]
            exact hc

/-- C5 witness: a first call on a fresh adapter stores a client keyed by the
resolved api_key. -/
theorem client_built_once_reused_until_stop_witness :
    (generate true ⟨[("api_key", .vStr "k1")], [], none, none⟩ "call-1" "hi"
        [] [] []).state.client = some ⟨.vStr "k1"⟩ :=
  client_built_once_reused_until_stop.1
    ⟨[("api_key", .vStr "k1")], [], none, none⟩ "call-1" "hi" [] [] []
    (.vStr "k1") rfl (by rfl) (by rfl)

/-- C8: with the `anthropic` package unavailable, `start` completes without
raising (it only warns) and leaves the state unchanged, while any `generate`
call that resolves an api_key raises the dependency `RuntimeError` from
client construction, with no remote call dispatched and the state
unchanged. -/
theorem dependency_error_raised_lazily :
    (∀ st : AdapterState, start false st = ⟨.ok (), st, true, false⟩) ∧
    (∀ (st : AdapterState) (callId transcript : String) (context options : Dict)
        (remote : List ContentBlock),
      pyTruthy (resolveApiKey st options) = true →
      generate false st callId transcript context options remote =
        ⟨.error (.dependency "anthropic package is not installed. Run `pip install anthropic`."),
          st, none, false, options⟩) := by
  refine ⟨fun _ => rfl, ?_⟩
  intro st callId transcript context options remote hkey
  unfold resolveApiKey at hkey
  exact generate_dependency_eq st callId transcript context options remote hkey

/-- C8 witness: with the dependency missing and an api_key configured,
`generate` raises the dependency error without a network call. -/
theorem dependency_error_raised_lazily_witness :
    generate false ⟨[("api_key", .vStr "k")], [], none, none⟩ "call-1" "hi"
        [] [] [] =
      ⟨.error (.dependency "anthropic package is not installed. Run `pip install anthropic`."),
        ⟨[("api_key", .vStr "k")], [], none, none⟩, none, false, []⟩ :=
  dependency_error_raised_lazily.2 ⟨[("api_key", .vStr "k")], [], none, none⟩
    "call-1" "hi" [] [] [] (by rfl)

/-- C10: when a higher-precedence layer — the pipeline defaults or the
runtime options — sets `api_key` to a falsy value (such as the empty string)
while the provider defaults hold a truthy one, `generate` does not fail and
does not use the higher layer's value: the resolved api_key is the
provider-level one, the remote call is dispatched, and the client handle ends
up keyed by the provider-level key when freshly constructed (an existing
handle being reused unchanged). -/
theorem falsy_api_key_falls_back_to_provider
    (st : AdapterState) (callId transcript : String) (context options : Dict)
    (remote : List ContentBlock) (v w : Value)
    (hlayer : ((dkeys options).Nodup ∧ dget options "api_key" = some v) ∨
      ((dkeys st.pipelineDefaults).Nodup ∧
        dget st.pipelineDefaults "api_key" = some v ∧
        dget options "api_key" = none))
    (hvf : v.isTruthy = false)
    (hw : dget st.providerDefaults "api_key" = some w)
    (hwt : w.isTruthy = true) :
    resolveApiKey st options = some w ∧
    ∃ resp,
      (generate true st callId transcript context options remote).result =
        .ok resp ∧
      (generate true st callId transcript context options remote).networkCalled =
        true ∧
      (generate true st callId transcript context options remote).state.client =
        some (st.client.getD ⟨w⟩) := by
  have hmerged : dget (mergeOptions st options) "api_key" = some v := by
    rcases hlayer with ⟨hnd, hv⟩ | ⟨hnd, hv, habs⟩
    · exact mergeOptions_api_key_of_runtime st options v hnd hv
    · exact mergeOptions_api_key_of_pipeline st options v hnd hv habs
  have hres : pyOr (dget (mergeOptions st options) "api_key")
      (dget st.providerDefaults "api_key") = some w := by
    rw [hmerged, hw]
    simp [pyOr, hvf]
  have hkey : pyTruthy (pyOr (dget (mergeOptions st options) "api_key")
      (dget st.providerDefaults "api_key")) = true := by
    rw [hres]
    exact hwt
  refine ⟨by unfold resolveApiKey; exact hres, ?_⟩
  cases hc : st.client with
  | none =>
      rw [generate_ok_eq st callId transcript context options remote hkey _ _
        (buildClient_of_none st _ hc)]
      exact ⟨_, rfl, rfl, by rw [hres]; rfl⟩
  | some c =>
      rw [generate_ok_eq st callId transcript context options remote hkey _ _
        (buildClient_of_some st _ c hc)]
      exact ⟨_, rfl, rfl, by rw [hc]; rfl⟩

/-- C10 witness: pipeline defaults set `api_key` to `""` over a
provider-level `"k1"` with the runtime options leaving it absent: the
resolved key is `"k1"`, the call succeeds with a remote dispatch, and the
freshly built client is keyed by `"k1"`. -/
theorem falsy_api_key_falls_back_to_provider_witness :
    resolveApiKey
        ⟨[("api_key", .vStr "k1")], [("api_key", .vStr "")], none, none⟩ [] =
      some (.vStr "k1") ∧
    ∃ resp,
      (generate true ⟨[("api_key", .vStr "k1")], [("api_key", .vStr "")], none,
          none⟩ "call-1" "hi" [] [] []).result = .ok resp ∧
      (generate true ⟨[("api_key", .vStr "k1")], [("api_key", .vStr "")], none,
          none⟩ "call-1" "hi" [] [] []).networkCalled = true ∧
      (generate true ⟨[("api_key", .vStr "k1")], [("api_key", .vStr "")], none,
          none⟩ "call-1" "hi" [] [] []).state.client =
        some ((none : Option Client).getD ⟨.vStr "k1"⟩) :=
  falsy_api_key_falls_back_to_provider
    ⟨[("api_key", .vStr "k1")], [("api_key", .vStr "")], none, none⟩
    "call-1" "hi" [] [] [] (.vStr "") (.vStr "k1")
    (Or.inr ⟨by decide, rfl, rfl⟩) (by decide) rfl (by decide)

end ClaudeAdapter
